import Mathlib

/-!
Verification of the kancli instance-inventory core (src/kancli.py).

The embedding models Python values as the inductive `Value` (None, strings,
integers, lists, string-keyed dictionaries).  A raw provider instance is a
dictionary (`Dict`, an ordered association list with distinct keys, matching
how the Python code builds its dictionaries by successive assignment of
distinct keys).  Python subscript access `d[k]`, which raises `KeyError`
when the key is missing, is modelled as `Except String Value`; functions
that can raise therefore return `Except`.  The normalization loop body of
`get_instances_dict_list` is factored as `normalize_instance`, and the
reservation-flattening loop as `flatten_reservations`; together they embed
lines 52-77 of src/kancli.py.
-/

set_option autoImplicit false

namespace Kancli

inductive Value where
  | none : Value
  | str : String → Value
  | int : Int → Value
  | list : List Value → Value
  | dict : List (String × Value) → Value

abbrev Dict := List (String × Value)

/-- First-match lookup in an ordered association list (Python dict lookup;
the code never assigns the same key twice, so first match equals dict
semantics). -/
def dictGet : Dict → String → Option Value
  | [], _ => Option.none
  | (k, v) :: rest, key => if k = key then some v else dictGet rest key

/-- Python `d[key]` on a dict: `KeyError` when the key is absent. -/
def pyGetKey (d : Dict) (key : String) : Except String Value :=
  match dictGet d key with
  | some v => Except.ok v
  | Option.none => Except.error ("KeyError: " ++ key)

/-- Python `v[key]` for a string key: only dictionaries are subscriptable. -/
def Value.getItem (v : Value) (key : String) : Except String Value :=
  match v with
  | .dict d => pyGetKey d key
  | _ => Except.error "TypeError: object is not subscriptable"

/-- Python `v == s` for a string literal `s`: true only when `v` is that
exact string (comparing a non-string to a string is simply unequal). -/
def Value.isStr (v : Value) (s : String) : Bool :=
  match v with
  | .str t => t = s
  | _ => false

/-- Python `len(v)`: defined for lists, dicts and strings. -/
def pyLen (v : Value) : Except String Nat :=
  match v with
  | .list xs => Except.ok xs.length
  | .dict d => Except.ok d.length
  | .str s => Except.ok s.length
  | _ => Except.error "TypeError: object has no len"

/-- Python `v[0]`: first list element (`IndexError` on an empty list),
first character of a string, integer-key lookup on a dict (always a
`KeyError` here since the modelled dicts have string keys). -/
def pyIndexZero (v : Value) : Except String Value :=
  match v with
  | .list [] => Except.error "IndexError: list index out of range"
  | .list (x :: _) => Except.ok x
  | .str s =>
    match s.data with
    | [] => Except.error "IndexError: string index out of range"
    | c :: _ => Except.ok (Value.str (String.mk [c]))
  | .dict _ => Except.error "KeyError: 0"
  | _ => Except.error "TypeError: object is not subscriptable"

/-- Python iteration `for x in v`: only lists are iterated by the code. -/
def asIterList (v : Value) : Except String (List Value) :=
  match v with
  | .list xs => Except.ok xs
  | _ => Except.error "TypeError: object is not iterable"

/-- src/kancli.py lines 9-11: `if key in inst: return inst[key]`
(implicit `return None` otherwise).  Total, never raises. -/
def get_instance_value_by_key (inst : Dict) (key : String) : Value :=
  match dictGet inst key with
  | some v => v
  | Option.none => Value.none

/-- src/kancli.py lines 14-17: reads `inst["State"]["Name"]`; when the
state is neither "running" nor "pending" reads
`inst["StateReason"]["Message"]`; otherwise implicitly returns None.
Raises (`Except.error`) when a required key is missing. -/
def get_instance_state_reason (inst : Dict) : Except String Value := do
  let st ← pyGetKey inst "State"
  let state_name ← st.getItem "Name"
  if !(state_name.isStr "running") && !(state_name.isStr "pending") then
    let sr ← pyGetKey inst "StateReason"
    sr.getItem "Message"
  else
    pure Value.none

/-- src/kancli.py lines 20-23: `inst["NetworkInterfaces"][0]["MacAddress"]`
when the list is non-empty, implicit None otherwise. -/
def get_instance_mac_address (inst : Dict) : Except String Value := do
  let nis ← pyGetKey inst "NetworkInterfaces"
  let n ← pyLen nis
  if n > 0 then
    let first ← pyIndexZero nis
    first.getItem "MacAddress"
  else
    pure Value.none

/-- src/kancli.py lines 25-27: like `get_instance_mac_address` but for
`NetworkInterfaceId`. -/
def get_instance_network_interface_id (inst : Dict) : Except String Value := do
  let nis ← pyGetKey inst "NetworkInterfaces"
  let n ← pyLen nis
  if n > 0 then
    let first ← pyIndexZero nis
    first.getItem "NetworkInterfaceId"
  else
    pure Value.none

/-- src/kancli.py lines 30-33: the raw Tags value when present, the empty
list otherwise.  Total, never raises. -/
def get_instance_tags (inst : Dict) : Value :=
  match dictGet inst "Tags" with
  | some v => v
  | Option.none => Value.list []

/-- src/kancli.py lines 36-50, in source order (Python dicts preserve
insertion order). -/
def fields_translation_dict : List (String × String) :=
  [("Id", "InstanceId"),
   ("Type", "InstanceType"),
   ("ImageId", "ImageId"),
   ("LaunchTime", "LaunchTime"),
   ("SubnetId", "SubnetId"),
   ("VpcId", "VpcId"),
   ("PrivateDnsName", "PrivateDnsName"),
   ("PrivateIpAddress", "PrivateIpAddress"),
   ("PublicDnsName", "PublicDnsName"),
   ("PublicIpAddress", "PublicIpAddress"),
   ("RootDeviceName", "RootDeviceName"),
   ("RootDeviceType", "RootDeviceType"),
   ("SecurityGroups", "SecurityGroups")]

/-- The record dictionary built by src/kancli.py lines 62-73, with keys in
assignment order (all 20 keys are distinct, so the association list equals
the Python dict). -/
def build_record (region : String) (inst : Dict)
    (state state_reason mac nii : Value) : Dict :=
  ("Cloud", Value.str "aws") ::
  ("Region", Value.str region) ::
  ("State", state) ::
  (fields_translation_dict.map
    (fun p => (p.1, get_instance_value_by_key inst p.2)) ++
   [("StateReason", state_reason),
    ("MacAddress", mac),
    ("NetworkInterfaceId", nii),
    ("Tags", get_instance_tags inst)])

/-- The body of the second loop of `get_instances_dict_list`
(src/kancli.py lines 61-75): normalizes one raw instance into one record.
Evaluation order follows the source: `inst["State"]["Name"]` first,
then the helper extractors; a missing required key propagates as an error
exactly as the Python exception would. -/
def normalize_instance (region : String) (inst : Dict) :
    Except String Dict := do
  let st ← pyGetKey inst "State"
  let state ← st.getItem "Name"
  let state_reason ← get_instance_state_reason inst
  let mac ← get_instance_mac_address inst
  let nii ← get_instance_network_interface_id inst
  pure (build_record region inst state state_reason mac nii)

/-- Normalize one element of the flattened instance list; the Python code
subscripts each element as a dict. -/
def normalize_value (region : String) (v : Value) : Except String Dict :=
  match v with
  | .dict d => normalize_instance region d
  | _ => Except.error "TypeError: object is not subscriptable"

/-- The first loop of `get_instances_dict_list` (src/kancli.py lines
57-59): flatten `my_instances["Reservations"]`, appending each
reservation instance list in order. -/
def flatten_reservations : List Value → Except String (List Value)
  | [] => Except.ok []
  | r :: rest => do
    let iv ← r.getItem "Instances"
    let insts ← asIterList iv
    let tail ← flatten_reservations rest
    pure (insts ++ tail)

/-- src/kancli.py lines 52-77.  The provider response (what
`ec2_client.describe_instances()` returned) and the configured region
(`ec2_client.meta.region_name`) stand for the client. -/
def get_instances_dict_list (response : Dict) (region : String) :
    Except String (List Dict) := do
  let rv ← pyGetKey response "Reservations"
  let reservations ← asIterList rv
  let flat ← flatten_reservations reservations
  flat.mapM (normalize_value region)

/-- Python ASCII whitespace as stripped by `str.lstrip()`. -/
def pyIsSpace (c : Char) : Bool :=
  c = ' ' || c = '\t' || c = '\n' || c = '\r' || c = '\x0b' || c = '\x0c'

/-- The remainder after the first colon, when one exists
(`s.split(":", 1)` keeps everything after the first separator in the
second piece). -/
def split_colon_rest : List Char → Option (List Char)
  | [] => Option.none
  | c :: rest => if c = ':' then some rest else split_colon_rest rest

/-- src/kancli.py lines 79-80: `str(ex).split(":", 1)[-1].lstrip()`.
The last piece of the split is the part after the first colon, or the
whole string when no colon occurs; `lstrip` drops leading whitespace. -/
def get_exception_error (s : String) : String :=
  String.mk (List.dropWhile pyIsSpace
    (match split_colon_rest s.data with
     | some r => r
     | Option.none => s.data))

/-- The provider calls the CLI commands can issue through the boto3
client. -/
inductive ProviderCall where
  | describeInstances : ProviderCall
  | startInstances : List String → ProviderCall
  | stopInstances : List String → ProviderCall
  | terminateInstances : List String → ProviderCall
deriving DecidableEq

/-- src/kancli.py lines 138-147: after the confirmation prompt,
`start_instance` issues exactly one provider call,
`start_instances(InstanceIds=[instance_id])`; no describe or validation
call appears in the body. -/
def start_instance_calls (instance_id : String) : List ProviderCall :=
  [ProviderCall.startInstances [instance_id]]

/-- src/kancli.py lines 153-162: `stop_instance` issues exactly
`stop_instances(InstanceIds=[instance_id])`. -/
def stop_instance_calls (instance_id : String) : List ProviderCall :=
  [ProviderCall.stopInstances [instance_id]]

/-- src/kancli.py lines 168-177: `terminate_instance` issues exactly
`terminate_instances(InstanceIds=[instance_id])`. -/
def terminate_instance_calls (instance_id : String) : List ProviderCall :=
  [ProviderCall.terminateInstances [instance_id]]

/-- Modelled from the spec: the Existence Validator
`exists(client, instance_id)` has no implementation in src/kancli.py
(only this one script variant is present).  Per the spec it performs a
linear scan over the fetched records, comparing the Id field of each
record to `instance_id` by exact string match, returning true on the
first match and false once the whole list has been scanned. -/
def exists_scan (records : List Dict) (instance_id : String) : Bool :=
  match records with
  | [] => false
  | r :: rest =>
    match dictGet r "Id" with
    | some v => if v.isStr instance_id then true else exists_scan rest instance_id
    | Option.none => exists_scan rest instance_id

/-- Modelled from the spec: the Existence Validator first calls the
Inventory Fetcher, then scans the resulting records. -/
def exists_instance (response : Dict) (region instance_id : String) :
    Except String Bool := do
  let records ← get_instances_dict_list response region
  pure (exists_scan records instance_id)

/-- A concrete stopped instance (the scenario from the spec). -/
def exStopped : Dict :=
  [("State", Value.dict [("Name", Value.str "stopped")]),
   ("StateReason", Value.dict [("Message", Value.str "User initiated")]),
   ("NetworkInterfaces", Value.list []),
   ("InstanceId", Value.str "i-1")]

/-- A concrete running instance with one network interface and a tag. -/
def exRunning : Dict :=
  [("State", Value.dict [("Name", Value.str "running")]),
   ("NetworkInterfaces", Value.list
     [Value.dict [("MacAddress", Value.str "02:aa:bb:cc:dd:ee"),
                  ("NetworkInterfaceId", Value.str "eni-1")]]),
   ("InstanceId", Value.str "i-2"),
   ("Tags", Value.list
     [Value.dict [("Key", Value.str "Name"),
                  ("Value", Value.str "web")]])]

/-! ## Helper lemmas -/

lemma exc_bind_of_ok {α β : Type} {x : Except String α} {a : α}
    (h : x = Except.ok a) (f : α → Except String β) : (x >>= f) = f a := by
  subst h; rfl

lemma exc_bind_ok {α β : Type} (x : Except String α) (f : α → Except String β)
    (b : β) (h : (x >>= f) = Except.ok b) :
    ∃ a, x = Except.ok a ∧ f a = Except.ok b := by
  cases x with
  | ok a => exact ⟨a, rfl, h⟩
  | error e => exact Except.noConfusion h

lemma pyGetKey_eq (d : Dict) (k : String) (v : Value)
    (h : dictGet d k = some v) : pyGetKey d k = Except.ok v := by
  unfold pyGetKey; rw [h]

lemma getItem_dict (d : Dict) (k : String) (v : Value)
    (h : dictGet d k = some v) : (Value.dict d).getItem k = Except.ok v := by
  unfold Value.getItem; exact pyGetKey_eq d k v h

lemma record_state_reason (region : String) (inst : Dict)
    (s r m n : Value) :
    dictGet (build_record region inst s r m n) "StateReason" = some r := rfl

lemma record_mac (region : String) (inst : Dict) (s r m n : Value) :
    dictGet (build_record region inst s r m n) "MacAddress" = some m := rfl

lemma record_nii (region : String) (inst : Dict) (s r m n : Value) :
    dictGet (build_record region inst s r m n) "NetworkInterfaceId" = some n := rfl

lemma record_tags (region : String) (inst : Dict) (s r m n : Value) :
    dictGet (build_record region inst s r m n) "Tags" =
      some (get_instance_tags inst) := rfl

lemma normalize_ok_inv (region : String) (inst rec : Dict)
    (h : normalize_instance region inst = Except.ok rec) :
    ∃ stv state srv mac nii,
      pyGetKey inst "State" = Except.ok stv ∧
      stv.getItem "Name" = Except.ok state ∧
      get_instance_state_reason inst = Except.ok srv ∧
      get_instance_mac_address inst = Except.ok mac ∧
      get_instance_network_interface_id inst = Except.ok nii ∧
      rec = build_record region inst state srv mac nii := by
  unfold normalize_instance at h
  obtain ⟨stv, h1, h⟩ := exc_bind_ok _ _ _ h
  obtain ⟨state, h2, h⟩ := exc_bind_ok _ _ _ h
  obtain ⟨srv, h3, h⟩ := exc_bind_ok _ _ _ h
  obtain ⟨mac, h4, h⟩ := exc_bind_ok _ _ _ h
  obtain ⟨nii, h5, h⟩ := exc_bind_ok _ _ _ h
  exact ⟨stv, state, srv, mac, nii, h1, h2, h3, h4, h5,
    (Except.ok.inj h).symm⟩

lemma normalize_eq (region : String) (inst : Dict) (stv state srv mac nii : Value)
    (h1 : pyGetKey inst "State" = Except.ok stv)
    (h2 : stv.getItem "Name" = Except.ok state)
    (h3 : get_instance_state_reason inst = Except.ok srv)
    (h4 : get_instance_mac_address inst = Except.ok mac)
    (h5 : get_instance_network_interface_id inst = Except.ok nii) :
    normalize_instance region inst =
      Except.ok (build_record region inst state srv mac nii) := by
  simp only [normalize_instance, exc_bind_of_ok h1, exc_bind_of_ok h2,
    exc_bind_of_ok h3, exc_bind_of_ok h4, exc_bind_of_ok h5]
  rfl

lemma state_reason_healthy (inst st : Dict) (nm : Value)
    (hst : dictGet inst "State" = some (Value.dict st))
    (hnm : dictGet st "Name" = some nm)
    (h : nm.isStr "running" = true ∨ nm.isStr "pending" = true) :
    get_instance_state_reason inst = Except.ok Value.none := by
  have h1 := pyGetKey_eq _ _ _ hst
  have h2 := getItem_dict _ _ _ hnm
  simp only [get_instance_state_reason, exc_bind_of_ok h1, exc_bind_of_ok h2]
  rcases h with h | h <;> (simp [h]; rfl)

lemma state_reason_sick (inst st sr : Dict) (nm m : Value)
    (hst : dictGet inst "State" = some (Value.dict st))
    (hnm : dictGet st "Name" = some nm)
    (hr : nm.isStr "running" = false)
    (hp : nm.isStr "pending" = false)
    (hsr : dictGet inst "StateReason" = some (Value.dict sr))
    (hm : dictGet sr "Message" = some m) :
    get_instance_state_reason inst = Except.ok m := by
  have h1 := pyGetKey_eq _ _ _ hst
  have h2 := getItem_dict _ _ _ hnm
  have h3 := pyGetKey_eq _ _ _ hsr
  have h4 := getItem_dict _ _ _ hm
  simp only [get_instance_state_reason, exc_bind_of_ok h1, exc_bind_of_ok h2,
    hr, hp, Bool.not_false, Bool.and_self, if_true,
    exc_bind_of_ok h3, h4]

lemma mac_empty (inst : Dict)
    (hni : dictGet inst "NetworkInterfaces" = some (Value.list [])) :
    get_instance_mac_address inst = Except.ok Value.none := by
  have h1 := pyGetKey_eq _ _ _ hni
  simp only [get_instance_mac_address, exc_bind_of_ok h1]
  rfl

lemma mac_first (inst fd : Dict) (rest : List Value) (mv : Value)
    (hni : dictGet inst "NetworkInterfaces" =
      some (Value.list (Value.dict fd :: rest)))
    (hmv : dictGet fd "MacAddress" = some mv) :
    get_instance_mac_address inst = Except.ok mv := by
  have h1 := pyGetKey_eq _ _ _ hni
  have h2 := getItem_dict _ _ _ hmv
  have hl : pyLen (Value.list (Value.dict fd :: rest)) =
      Except.ok (rest.length + 1) := rfl
  have hz : pyIndexZero (Value.list (Value.dict fd :: rest)) =
      Except.ok (Value.dict fd) := rfl
  simp only [get_instance_mac_address, exc_bind_of_ok h1, exc_bind_of_ok hl,
    Nat.succ_pos, if_true, exc_bind_of_ok hz]
  exact h2

lemma nii_empty (inst : Dict)
    (hni : dictGet inst "NetworkInterfaces" = some (Value.list [])) :
    get_instance_network_interface_id inst = Except.ok Value.none := by
  have h1 := pyGetKey_eq _ _ _ hni
  simp only [get_instance_network_interface_id, exc_bind_of_ok h1]
  rfl

lemma nii_first (inst fd : Dict) (rest : List Value) (nv : Value)
    (hni : dictGet inst "NetworkInterfaces" =
      some (Value.list (Value.dict fd :: rest)))
    (hnv : dictGet fd "NetworkInterfaceId" = some nv) :
    get_instance_network_interface_id inst = Except.ok nv := by
  have h1 := pyGetKey_eq _ _ _ hni
  have h2 := getItem_dict _ _ _ hnv
  have hl : pyLen (Value.list (Value.dict fd :: rest)) =
      Except.ok (rest.length + 1) := rfl
  have hz : pyIndexZero (Value.list (Value.dict fd :: rest)) =
      Except.ok (Value.dict fd) := rfl
  simp only [get_instance_network_interface_id, exc_bind_of_ok h1,
    exc_bind_of_ok hl, Nat.succ_pos, if_true, exc_bind_of_ok hz]
  exact h2

/-! ## Claim C2: totality of normalization -/

/-- The shape assumptions under which normalization cannot raise: a State
object with a Name; when the state name is neither "running" nor "pending",
a StateReason object with a Message; a NetworkInterfaces list whose first
entry, when the list is non-empty, is an object with MacAddress and
NetworkInterfaceId.  Passthrough keys and Tags are unconstrained. -/
def WellFormedInstance (inst : Dict) : Prop :=
  (∃ st nm, dictGet inst "State" = some (Value.dict st) ∧
    dictGet st "Name" = some nm ∧
    (nm.isStr "running" = false → nm.isStr "pending" = false →
      ∃ sr m, dictGet inst "StateReason" = some (Value.dict sr) ∧
        dictGet sr "Message" = some m)) ∧
  (∃ nis, dictGet inst "NetworkInterfaces" = some (Value.list nis) ∧
    ∀ x xs, nis = x :: xs → ∃ fd mv nv, x = Value.dict fd ∧
      dictGet fd "MacAddress" = some mv ∧
      dictGet fd "NetworkInterfaceId" = some nv)

/-- C2 counterexample: normalization is not total over arbitrary raw
objects — on the empty raw instance (no State key) it raises a KeyError
instead of producing a record. -/
theorem C2_normalization_not_total :
    ¬ ∃ rec, normalize_instance "us-east-1" [] = Except.ok rec := by
  rintro ⟨rec, h⟩
  have he : normalize_instance "us-east-1" [] =
      Except.error "KeyError: State" := rfl
  rw [he] at h
  exact Except.noConfusion h

/-- C2 (amended): normalization is total — producing exactly one record,
with missing passthrough keys and Tags becoming an absent field rather
than an error — for every raw instance satisfying the shape assumptions
of `WellFormedInstance` (State.Name present; StateReason.Message present
when the state is neither "running" nor "pending"; NetworkInterfaces
present with a well-shaped first entry when non-empty). -/
theorem C2_amended_total_on_wellformed (region : String) (inst : Dict)
    (h : WellFormedInstance inst) :
    ∃ rec, normalize_instance region inst = Except.ok rec := by
  obtain ⟨⟨st, nm, hst, hnm, hsick⟩, ⟨nis, hnis, hfirst⟩⟩ := h
  have h1 : pyGetKey inst "State" = Except.ok (Value.dict st) :=
    pyGetKey_eq _ _ _ hst
  have h2 : (Value.dict st).getItem "Name" = Except.ok nm :=
    getItem_dict _ _ _ hnm
  have h3 : ∃ srv, get_instance_state_reason inst = Except.ok srv := by
    cases hr : nm.isStr "running" with
    | true => exact ⟨_, state_reason_healthy _ _ _ hst hnm (Or.inl hr)⟩
    | false =>
      cases hp : nm.isStr "pending" with
      | true => exact ⟨_, state_reason_healthy _ _ _ hst hnm (Or.inr hp)⟩
      | false =>
        obtain ⟨sr, m, hsrd, hm⟩ := hsick hr hp
        exact ⟨m, state_reason_sick _ _ _ _ _ hst hnm hr hp hsrd hm⟩
  have h4 : ∃ mv, get_instance_mac_address inst = Except.ok mv := by
    cases nis with
    | nil => exact ⟨_, mac_empty _ hnis⟩
    | cons x xs =>
      obtain ⟨fd, mv, nv, rfl, hmv, hnv⟩ := hfirst x xs rfl
      exact ⟨mv, mac_first _ _ _ _ hnis hmv⟩
  have h5 : ∃ nv, get_instance_network_interface_id inst = Except.ok nv := by
    cases nis with
    | nil => exact ⟨_, nii_empty _ hnis⟩
    | cons x xs =>
      obtain ⟨fd, mv, nv, rfl, hmv, hnv⟩ := hfirst x xs rfl
      exact ⟨nv, nii_first _ _ _ _ hnis hnv⟩
  obtain ⟨srv, h3⟩ := h3
  obtain ⟨mv, h4⟩ := h4
  obtain ⟨nv, h5⟩ := h5
  exact ⟨_, normalize_eq region inst _ _ _ _ _ h1 h2 h3 h4 h5⟩

/-- C2 witness: the stopped-instance scenario is well-formed and
normalizes successfully. -/
theorem C2_witness :
    ∃ rec, normalize_instance "us-east-1" exStopped = Except.ok rec :=
  C2_amended_total_on_wellformed "us-east-1" exStopped
    ⟨⟨[("Name", Value.str "stopped")], Value.str "stopped", rfl, rfl,
      fun _ _ => ⟨[("Message", Value.str "User initiated")],
        Value.str "User initiated", rfl, rfl⟩⟩,
     ⟨[], rfl, fun _ _ hx => nomatch hx⟩⟩

/-! ## Claim C4: the state_reason rule -/

/-- C4: in any successfully produced record, the StateReason field is the
absent marker (None) when the raw state name is "running" or "pending",
and equals the nested StateReason.Message when the state name is anything
else and the message is present. -/
theorem C4_state_reason_rule (region : String) (inst st rec : Dict)
    (nm : Value)
    (hst : dictGet inst "State" = some (Value.dict st))
    (hnm : dictGet st "Name" = some nm)
    (hrec : normalize_instance region inst = Except.ok rec) :
    ((nm.isStr "running" = true ∨ nm.isStr "pending" = true) →
      dictGet rec "StateReason" = some Value.none) ∧
    (nm.isStr "running" = false → nm.isStr "pending" = false →
      ∀ (sr : Dict) (m : Value),
        dictGet inst "StateReason" = some (Value.dict sr) →
        dictGet sr "Message" = some m →
        dictGet rec "StateReason" = some m) := by
  obtain ⟨stv, state, srv, mac, nii, h1, h2, h3, h4, h5, hrec'⟩ :=
    normalize_ok_inv _ _ _ hrec
  subst hrec'
  constructor
  · intro h
    have hh := state_reason_healthy _ _ _ hst hnm h
    rw [h3] at hh
    have hsrv : srv = Value.none := Except.ok.inj hh
    rw [record_state_reason, hsrv]
  · intro hr hp sr m hsrd hm
    have hh := state_reason_sick _ _ _ _ _ hst hnm hr hp hsrd hm
    rw [h3] at hh
    have hsrv : srv = m := Except.ok.inj hh
    rw [record_state_reason, hsrv]

/-- C4 witness: the stopped instance carries its StateReason message. -/
theorem C4_witness :
    ∃ rec, normalize_instance "us-east-1" exStopped = Except.ok rec ∧
      dictGet rec "StateReason" = some (Value.str "User initiated") := by
  refine ⟨_, rfl, ?_⟩
  exact (C4_state_reason_rule "us-east-1" exStopped
      [("Name", Value.str "stopped")] _ (Value.str "stopped")
      rfl rfl rfl).2 (by decide) (by decide)
      [("Message", Value.str "User initiated")]
      (Value.str "User initiated") rfl rfl

/-! ## Claim C5: the network-interface rule -/

/-- C5: in any successfully produced record, MacAddress and
NetworkInterfaceId are the absent marker (None) when the raw
NetworkInterfaces list is empty, and equal the MacAddress and
NetworkInterfaceId fields of the entry at index 0 when it is
non-empty. -/
theorem C5_network_fields_rule (region : String) (inst rec : Dict)
    (hrec : normalize_instance region inst = Except.ok rec) :
    (dictGet inst "NetworkInterfaces" = some (Value.list []) →
      dictGet rec "MacAddress" = some Value.none ∧
      dictGet rec "NetworkInterfaceId" = some Value.none) ∧
    (∀ (fd : Dict) (rest : List Value) (mv nv : Value),
      dictGet inst "NetworkInterfaces" =
        some (Value.list (Value.dict fd :: rest)) →
      dictGet fd "MacAddress" = some mv →
      dictGet fd "NetworkInterfaceId" = some nv →
      dictGet rec "MacAddress" = some mv ∧
      dictGet rec "NetworkInterfaceId" = some nv) := by
  obtain ⟨stv, state, srv, mac, nii, h1, h2, h3, h4, h5, hrec'⟩ :=
    normalize_ok_inv _ _ _ hrec
  subst hrec'
  constructor
  · intro hni
    have hm := mac_empty _ hni
    have hn := nii_empty _ hni
    rw [h4] at hm
    rw [h5] at hn
    constructor
    · rw [record_mac, Except.ok.inj hm]
    · rw [record_nii, Except.ok.inj hn]
  · intro fd rest mv nv hni hmv hnv
    have hm := mac_first _ _ _ _ hni hmv
    have hn := nii_first _ _ _ _ hni hnv
    rw [h4] at hm
    rw [h5] at hn
    constructor
    · rw [record_mac, Except.ok.inj hm]
    · rw [record_nii, Except.ok.inj hn]

/-- C5 witness: the running instance reports the first network
interface. -/
theorem C5_witness :
    ∃ rec, normalize_instance "eu-west-1" exRunning = Except.ok rec ∧
      dictGet rec "MacAddress" = some (Value.str "02:aa:bb:cc:dd:ee") ∧
      dictGet rec "NetworkInterfaceId" = some (Value.str "eni-1") := by
  refine ⟨_, rfl, ?_⟩
  exact (C5_network_fields_rule "eu-west-1" exRunning _ rfl).2
    [("MacAddress", Value.str "02:aa:bb:cc:dd:ee"),
     ("NetworkInterfaceId", Value.str "eni-1")] []
    (Value.str "02:aa:bb:cc:dd:ee") (Value.str "eni-1") rfl rfl rfl

/-! ## Claim C6: passthrough fields -/

lemma passthrough_conj (inst rec : Dict) (k tk : String)
    (hbase : dictGet rec k = some (get_instance_value_by_key inst tk)) :
    (∀ v, dictGet inst tk = some v → dictGet rec k = some v) ∧
    (dictGet inst tk = Option.none → dictGet rec k = some Value.none) := by
  constructor
  · intro v hv
    rw [hbase]
    unfold get_instance_value_by_key
    rw [hv]
  · intro hab
    rw [hbase]
    unfold get_instance_value_by_key
    rw [hab]

/-- C6: in any successfully produced record, each of the 13 passthrough
fields holds exactly the raw value of its translated key when that key is
present, and holds the absent marker (None) — with no error and no other
default — when the key is absent. -/
theorem C6_passthrough_rule (region : String) (inst rec : Dict)
    (hrec : normalize_instance region inst = Except.ok rec) :
    ∀ p ∈ fields_translation_dict,
      dictGet rec p.1 = some (get_instance_value_by_key inst p.2) ∧
      (∀ v, dictGet inst p.2 = some v → dictGet rec p.1 = some v) ∧
      (dictGet inst p.2 = Option.none → dictGet rec p.1 = some Value.none) := by
  obtain ⟨stv, state, srv, mac, nii, h1, h2, h3, h4, h5, hrec'⟩ :=
    normalize_ok_inv _ _ _ hrec
  subst hrec'
  intro p hp
  fin_cases hp <;>
    exact ⟨rfl, passthrough_conj _ _ _ _ rfl⟩

/-- C6 witness: Id is passed through; the absent VpcId key yields an
absent field. -/
theorem C6_witness :
    ∃ rec, normalize_instance "us-east-1" exStopped = Except.ok rec ∧
      dictGet rec "Id" = some (Value.str "i-1") ∧
      dictGet rec "VpcId" = some Value.none := by
  refine ⟨_, rfl, ?_, ?_⟩
  · exact (C6_passthrough_rule "us-east-1" exStopped _ rfl
      ("Id", "InstanceId") (by decide)).2.1 (Value.str "i-1") rfl
  · exact (C6_passthrough_rule "us-east-1" exStopped _ rfl
      ("VpcId", "VpcId") (by decide)).2.2 rfl

/-! ## Claim C7: tags are never absent -/

/-- C7: in any successfully produced record the Tags field is present; it
is the empty list when the raw object has no Tags key and the raw Tags
value otherwise. -/
theorem C7_tags_rule (region : String) (inst rec : Dict)
    (hrec : normalize_instance region inst = Except.ok rec) :
    dictGet rec "Tags" = some (get_instance_tags inst) ∧
    (dictGet inst "Tags" = Option.none →
      dictGet rec "Tags" = some (Value.list [])) ∧
    (∀ tv, dictGet inst "Tags" = some tv → dictGet rec "Tags" = some tv) := by
  obtain ⟨stv, state, srv, mac, nii, h1, h2, h3, h4, h5, hrec'⟩ :=
    normalize_ok_inv _ _ _ hrec
  subst hrec'
  refine ⟨record_tags region inst state srv mac nii, ?_, ?_⟩
  · intro hab
    rw [record_tags]
    unfold get_instance_tags
    rw [hab]
  · intro tv htv
    rw [record_tags]
    unfold get_instance_tags
    rw [htv]

/-- C7 witness: the tagless stopped instance gets an empty Tags list. -/
theorem C7_witness :
    ∃ rec, normalize_instance "us-east-1" exStopped = Except.ok rec ∧
      dictGet rec "Tags" = some (Value.list []) :=
  ⟨_, rfl, (C7_tags_rule "us-east-1" exStopped _ rfl).2.1 rfl⟩

/-! ## Claim C8: the Fetcher flattens in order and normalizes in place -/

/-- C8: for a provider response holding two reservations with instance
lists [A, B] and [C], the Fetcher returns exactly the records of A, B
and C in that order, each raw instance normalized in place. -/
theorem C8_fetch_flattens_in_order (region : String) (a b c ra rb rc : Dict)
    (ha : normalize_instance region a = Except.ok ra)
    (hb : normalize_instance region b = Except.ok rb)
    (hc : normalize_instance region c = Except.ok rc) :
    get_instances_dict_list
      [("Reservations", Value.list
        [Value.dict [("Instances", Value.list [Value.dict a, Value.dict b])],
         Value.dict [("Instances", Value.list [Value.dict c])]])] region
    = Except.ok [ra, rb, rc] := by
  have h1 : pyGetKey
      [("Reservations", Value.list
        [Value.dict [("Instances", Value.list [Value.dict a, Value.dict b])],
         Value.dict [("Instances", Value.list [Value.dict c])]])]
      "Reservations" = Except.ok (Value.list
        [Value.dict [("Instances", Value.list [Value.dict a, Value.dict b])],
         Value.dict [("Instances", Value.list [Value.dict c])]]) := rfl
  have h2 : asIterList (Value.list
        [Value.dict [("Instances", Value.list [Value.dict a, Value.dict b])],
         Value.dict [("Instances", Value.list [Value.dict c])]]) =
      Except.ok
        [Value.dict [("Instances", Value.list [Value.dict a, Value.dict b])],
         Value.dict [("Instances", Value.list [Value.dict c])]] := rfl
  have h3 : flatten_reservations
        [Value.dict [("Instances", Value.list [Value.dict a, Value.dict b])],
         Value.dict [("Instances", Value.list [Value.dict c])]] =
      Except.ok [Value.dict a, Value.dict b, Value.dict c] := rfl
  have hA : normalize_value region (Value.dict a) = Except.ok ra := ha
  have hB : normalize_value region (Value.dict b) = Except.ok rb := hb
  have hC : normalize_value region (Value.dict c) = Except.ok rc := hc
  simp only [get_instances_dict_list, exc_bind_of_ok h1, exc_bind_of_ok h2,
    exc_bind_of_ok h3, List.mapM, List.mapM.loop, exc_bind_of_ok hA,
    exc_bind_of_ok hB, exc_bind_of_ok hC]
  rfl

/-- C8 witness: a concrete two-reservation response flattens to the three
records in order. -/
theorem C8_witness :
    ∃ ra rb rc,
      normalize_instance "r" exRunning = Except.ok ra ∧
      normalize_instance "r" exStopped = Except.ok rb ∧
      normalize_instance "r" exStopped = Except.ok rc ∧
      get_instances_dict_list
        [("Reservations", Value.list
          [Value.dict [("Instances",
            Value.list [Value.dict exRunning, Value.dict exStopped])],
           Value.dict [("Instances", Value.list [Value.dict exStopped])]])] "r"
      = Except.ok [ra, rb, rc] :=
  ⟨_, _, _, rfl, rfl, rfl,
    C8_fetch_flattens_in_order "r" exRunning exStopped exStopped _ _ _
      rfl rfl rfl⟩

/-! ## Claim C9: the exception message rule -/

lemma split_colon_rest_of_not_mem (xs : List Char) (h : ':' ∉ xs) :
    split_colon_rest xs = Option.none := by
  induction xs with
  | nil => rfl
  | cons c rest ih =>
    have hc : ¬ c = ':' := fun e => h (e ▸ List.mem_cons_self c rest)
    simp only [split_colon_rest, if_neg hc]
    exact ih (fun hm => h (List.mem_cons_of_mem c hm))

lemma split_colon_rest_append (xs ys : List Char) (h : ':' ∉ xs) :
    split_colon_rest (xs ++ ':' :: ys) = some ys := by
  induction xs with
  | nil => simp [split_colon_rest]
  | cons c rest ih =>
    have hc : ¬ c = ':' := fun e => h (e ▸ List.mem_cons_self c rest)
    simp only [List.cons_append, split_colon_rest, if_neg hc]
    exact ih (fun hm => h (List.mem_cons_of_mem c hm))

/-- C9: the surfaced error text is the part of the exception string after
the first colon — the whole string when no colon occurs — with leading
whitespace stripped. -/
theorem C9_exception_message_rule :
    (∀ pre post : String, ':' ∉ pre.data →
      get_exception_error (pre ++ ":" ++ post) =
        String.mk (post.data.dropWhile pyIsSpace)) ∧
    (∀ s : String, ':' ∉ s.data →
      get_exception_error s = String.mk (s.data.dropWhile pyIsSpace)) := by
  constructor
  · intro pre post h
    have hdata : (pre ++ ":" ++ post).data = pre.data ++ ':' :: post.data := by
      rw [String.data_append, String.data_append]
      rw [show (":" : String).data = [':'] from rfl, List.append_assoc]
      rfl
    unfold get_exception_error
    rw [hdata, split_colon_rest_append _ _ h]
  · intro s h
    unfold get_exception_error
    rw [split_colon_rest_of_not_mem _ h]

/-- C9 witness: the internal prefix before the first colon is removed and
the remaining leading space stripped. -/
theorem C9_witness :
    get_exception_error "ClientError: An error occurred" =
      "An error occurred" := by
  have h := C9_exception_message_rule.1 "ClientError" " An error occurred"
    (by decide)
  rw [show ("ClientError" ++ ":" ++ " An error occurred" : String) =
    "ClientError: An error occurred" from rfl] at h
  rw [h]
  rfl

/-! ## Claim C10: the fixed record shape -/

lemma dictGet_of_mem_keys (d : Dict) (k : String)
    (h : k ∈ d.map Prod.fst) : ∃ v, dictGet d k = some v := by
  induction d with
  | nil => simp at h
  | cons p rest ih =>
    obtain ⟨k1, v1⟩ := p
    rcases eq_or_ne k1 k with he | hne
    · exact ⟨v1, by simp [dictGet, he]⟩
    · have hk : k ∈ rest.map Prod.fst := by
        rcases (List.mem_cons.mp h) with he2 | hm
        · exact absurd he2.symm hne
        · exact hm
      obtain ⟨v, hv⟩ := ih hk
      exact ⟨v, by simp [dictGet, hne, hv]⟩

/-- The 20 record keys, in assignment order. -/
def record_key_list : List String :=
  ["Cloud", "Region", "State", "Id", "Type", "ImageId", "LaunchTime",
   "SubnetId", "VpcId", "PrivateDnsName", "PrivateIpAddress",
   "PublicDnsName", "PublicIpAddress", "RootDeviceName", "RootDeviceType",
   "SecurityGroups", "StateReason", "MacAddress", "NetworkInterfaceId",
   "Tags"]

/-- C10 counterexample: the record produced for the stopped instance has
20 keys, not 19 — the fixed key set is Cloud, Region, State, the 13
passthrough fields, StateReason, MacAddress, NetworkInterfaceId and Tags,
which number 20. -/
theorem C10_twenty_fields_not_nineteen :
    ∃ rec, normalize_instance "us-east-1" exStopped = Except.ok rec ∧
      (rec.map Prod.fst).length = 20 ∧ ¬ (rec.map Prod.fst).length = 19 := by
  refine ⟨_, rfl, rfl, ?_⟩
  intro h
  exact absurd h (by decide)

/-- C10 (amended): every successfully produced record has exactly the
same fixed set of 20 fields in the same order; every key of that set is
present (a missing raw value appears as a present field holding the
absent marker, never as a missing key); and every record carries
Cloud = "aws" and Region = the configured region. -/
theorem C10_amended_record_shape (region : String) (inst rec : Dict)
    (hrec : normalize_instance region inst = Except.ok rec) :
    rec.map Prod.fst = record_key_list ∧
    (∀ k, k ∈ record_key_list → ∃ v, dictGet rec k = some v) ∧
    dictGet rec "Cloud" = some (Value.str "aws") ∧
    dictGet rec "Region" = some (Value.str region) := by
  obtain ⟨stv, state, srv, mac, nii, h1, h2, h3, h4, h5, hrec'⟩ :=
    normalize_ok_inv _ _ _ hrec
  subst hrec'
  have hkeys : (build_record region inst state srv mac nii).map Prod.fst =
      record_key_list := rfl
  refine ⟨hkeys, ?_, rfl, rfl⟩
  intro k hk
  exact dictGet_of_mem_keys _ k (hkeys ▸ hk)

/-- C10 witness: the running instance record carries the constant cloud
tag and the configured region. -/
theorem C10_witness :
    ∃ rec, normalize_instance "eu-west-1" exRunning = Except.ok rec ∧
      dictGet rec "Cloud" = some (Value.str "aws") ∧
      dictGet rec "Region" = some (Value.str "eu-west-1") := by
  refine ⟨_, rfl, ?_, ?_⟩
  · exact (C10_amended_record_shape "eu-west-1" exRunning _ rfl).2.2.1
  · exact (C10_amended_record_shape "eu-west-1" exRunning _ rfl).2.2.2

/-! ## Claim C3: the Existence Validator -/

/-- C3: the linear scan returns true exactly when some record in the
inventory has an Id field that is string-equal to the requested id, and
returns false on an empty inventory. -/
theorem C3_exists_scan_correct :
    (∀ (records : List Dict) (instance_id : String),
      exists_scan records instance_id = true ↔
        ∃ r ∈ records, ∃ v, dictGet r "Id" = some v ∧
          v.isStr instance_id = true) ∧
    (∀ instance_id : String, exists_scan [] instance_id = false) := by
  constructor
  · intro records instance_id
    induction records with
    | nil => simp [exists_scan]
    | cons r rest ih =>
      rw [exists_scan]
      split
      · next v hv =>
        by_cases hiv : v.isStr instance_id = true
        · rw [if_pos hiv]
          constructor
          · intro _
            exact ⟨r, List.mem_cons_self r rest, v, hv, hiv⟩
          · intro _
            rfl
        · have hivf : v.isStr instance_id = false := by
            revert hiv
            cases v.isStr instance_id <;> simp
          rw [if_neg hiv, ih]
          constructor
          · rintro ⟨x, hx, w, hv1, hv2⟩
            exact ⟨x, List.mem_cons_of_mem r hx, w, hv1, hv2⟩
          · rintro ⟨x, hx, w, hv1, hv2⟩
            rcases List.mem_cons.mp hx with he | hm
            · subst he
              rw [hv] at hv1
              rw [Option.some.inj hv1] at hivf
              rw [hivf] at hv2
              exact Bool.noConfusion hv2
            · exact ⟨x, hm, w, hv1, hv2⟩
      · next hv =>
        rw [ih]
        constructor
        · rintro ⟨x, hx, w, hv1, hv2⟩
          exact ⟨x, List.mem_cons_of_mem r hx, w, hv1, hv2⟩
        · rintro ⟨x, hx, w, hv1, hv2⟩
          rcases List.mem_cons.mp hx with he | hm
          · subst he
            rw [hv] at hv1
            exact Option.noConfusion hv1
          · exact ⟨x, hm, w, hv1, hv2⟩
  · intro instance_id
    rfl

/-- C3 witness: a present id is found, a missing one and the empty
inventory are not. -/
theorem C3_witness :
    exists_scan [[("Id", Value.str "i-1")], [("Id", Value.str "i-2")]]
      "i-2" = true ∧
    exists_scan [] "i-9" = false := by
  constructor
  · exact (C3_exists_scan_correct.1 _ "i-2").mpr
      ⟨[("Id", Value.str "i-2")], by simp, Value.str "i-2", rfl, by decide⟩
  · exact C3_exists_scan_correct.2 "i-9"

/-! ## Claim C1: mutating commands and existence validation -/

/-- C1 counterexample: with an inventory in which the id "i-123" does not
exist (the fetched record list is empty and the scan reports false), the
start command still issues the provider mutation call, and its call trace
contains no describe (validation) call at all. -/
theorem C1_mutation_issued_without_validation :
    get_instances_dict_list [("Reservations", Value.list [])] "us-east-1" =
      Except.ok [] ∧
    exists_scan [] "i-123" = false ∧
    ProviderCall.startInstances ["i-123"] ∈ start_instance_calls "i-123" ∧
    ProviderCall.describeInstances ∉ start_instance_calls "i-123" := by
  refine ⟨rfl, rfl, ?_, ?_⟩
  · exact List.mem_singleton.mpr rfl
  · decide

/-- C1 (amended): each mutating command issues its provider mutation call
unconditionally — the call trace is exactly the single mutation for the
given id, with no describe (existence-validation) call before it, so the
mutation is issued whether or not the id exists in the inventory. -/
theorem C1_amended_commands_mutate_unconditionally (instance_id : String) :
    start_instance_calls instance_id =
      [ProviderCall.startInstances [instance_id]] ∧
    stop_instance_calls instance_id =
      [ProviderCall.stopInstances [instance_id]] ∧
    terminate_instance_calls instance_id =
      [ProviderCall.terminateInstances [instance_id]] ∧
    ProviderCall.describeInstances ∉ start_instance_calls instance_id ∧
    ProviderCall.describeInstances ∉ stop_instance_calls instance_id ∧
    ProviderCall.describeInstances ∉ terminate_instance_calls instance_id := by
  refine ⟨rfl, rfl, rfl, ?_, ?_, ?_⟩ <;>
    simp [start_instance_calls, stop_instance_calls, terminate_instance_calls]

/-- C1 witness: concrete instantiation of the amended claim. -/
theorem C1_witness :
    ProviderCall.describeInstances ∉ start_instance_calls "i-123" :=
  (C1_amended_commands_mutate_unconditionally "i-123").2.2.2.1

end Kancli
